import Mathlib

/-!
Verification of the URA fungible-token contract (src/uraft/ft/src/lib.rs).

The single source file of the repository wires a `FungibleToken` ledger and a
storage manager into a NEAR contract through the macros
`impl_fungible_token_core!` and `impl_fungible_token_storage!`, adds
`Contract::new` / `Contract::new_default_meta` constructors and a metadata
provider.  The ledger, transfer-protocol and storage-manager operation
bodies live behind those macro invocations and are not part of src/, so
they are modelled here from the specification (each such definition carries
a doc comment starting with "Modelled from the spec:").  The constructors,
the default metadata and the metadata provider are embedded directly from
the source file.

Machine integers: balances are `u128` in the source; they are modelled as
`Nat` with explicit checks against `U128_MAX`, since all source arithmetic
is checked (a would-be overflow aborts the call, it never wraps).
-/

deriving instance DecidableEq for Except

/-- Account identifiers are opaque host-validated strings. -/
abbrev AccountId := String

/-- The maximum balance value is limited by U128 (2^128 - 1) per the source
header notes of the source file and the 128-bit bound in the spec. -/
def U128_MAX : Nat := 2 ^ 128 - 1

/-- The error taxonomy of spec section 7, plus `ReceiverNotRegistered` and
`NonZeroBalance` which the component design of the spec (section 4.1) names for
`transfer` and `unregister`. -/
inductive FtError where
  | AlreadyInitialized
  | NotInitialized
  | AlreadyRegistered
  | NotRegistered
  | InsufficientBalance
  | InsufficientStorageDeposit
  | StorageUnavailable
  | Overflow
  | SelfTransfer
  | ZeroAmount
  | ReceiverNotRegistered
  | ReceiverCallFailed
  | NonZeroBalance
  | InvalidMetadata
  deriving DecidableEq, Repr

/-- The ledger map from account identifier to balance, embedded as an
association list: first binding for a key wins. -/
def lookupBal : List (AccountId × Nat) → AccountId → Option Nat
  | [], _ => none
  | (k, v) :: rest, a => if k = a then some v else lookupBal rest a

/-- Replace the first binding of key `a` with value `v`; append if absent. -/
def insertBal : List (AccountId × Nat) → AccountId → Nat → List (AccountId × Nat)
  | [], a, v => [(a, v)]
  | (k, w) :: rest, a, v => if k = a then (a, v) :: rest else (k, w) :: insertBal rest a v

/-- Remove the first binding of key `a`. -/
def removeBal : List (AccountId × Nat) → AccountId → List (AccountId × Nat)
  | [], _ => []
  | (k, w) :: rest, a => if k = a then rest else (k, w) :: removeBal rest a

/-- Sum of all balances held in the ledger. -/
def sumBal (l : List (AccountId × Nat)) : Nat := (l.map Prod.snd).sum

/-- The `FungibleToken` state: per-account balances plus the stored total
supply (spec section 3 data model; `token: FungibleToken` field of the
contract struct). -/
structure FungibleToken where
  accounts : List (AccountId × Nat)
  total_supply : Nat
  deriving DecidableEq, Repr

/-- Modelled from the spec: `balance_of(account)` returns 0 for
unregistered accounts; query-only (spec section 4.1).  The macro-provided
`ft_balance_of` is not in src/. -/
def ft_balance_of (t : FungibleToken) (a : AccountId) : Nat :=
  match lookupBal t.accounts a with
  | some b => b
  | none => 0

/-- Modelled from the spec: `total_supply()` returns the stored aggregate
(spec section 4.1).  The macro-provided `ft_total_supply` is not in src/. -/
def ft_total_supply (t : FungibleToken) : Nat := t.total_supply

/-- Modelled from the spec: `register(account)` creates a zero-balance
entry if absent, fails with `AlreadyRegistered` if present (spec section
4.1).  The standards-crate `internal_register_account` is not in src/. -/
def internal_register_account (t : FungibleToken) (a : AccountId) :
    Except FtError FungibleToken :=
  match lookupBal t.accounts a with
  | some _ => .error .AlreadyRegistered
  | none => .ok { t with accounts := t.accounts ++ [(a, 0)] }

/-- Modelled from the spec: `deposit(account, amount)` increases the
balance and the total supply; fails with `Overflow` past the 128-bit bound
and with `NotRegistered` when the account has no entry (spec section 4.1).
The standards-crate `internal_deposit` is not in src/. -/
def internal_deposit (t : FungibleToken) (a : AccountId) (amount : Nat) :
    Except FtError FungibleToken :=
  match lookupBal t.accounts a with
  | none => .error .NotRegistered
  | some b =>
    if U128_MAX < b + amount then .error .Overflow
    else if U128_MAX < t.total_supply + amount then .error .Overflow
    else .ok { accounts := insertBal t.accounts a (b + amount),
               total_supply := t.total_supply + amount }

/-- Modelled from the spec: `withdraw(account, amount)` decreases the
balance and the total supply; fails with `InsufficientBalance` if
`amount > balance`, with `NotRegistered` when the account has no entry
(spec section 4.1).  The standards-crate `internal_withdraw` is not in
src/. -/
def internal_withdraw (t : FungibleToken) (a : AccountId) (amount : Nat) :
    Except FtError FungibleToken :=
  match lookupBal t.accounts a with
  | none => .error .NotRegistered
  | some b =>
    if b < amount then .error .InsufficientBalance
    else .ok { accounts := insertBal t.accounts a (b - amount),
               total_supply := t.total_supply - amount }

/-- Modelled from the spec: `transfer(sender, receiver, amount)` fails with
`SelfTransfer` if sender == receiver, `ZeroAmount` if amount == 0, then
atomically withdraws from the sender (which yields `NotRegistered` or
`InsufficientBalance`) and deposits to the receiver, failing with
`ReceiverNotRegistered` when the receiver has no entry; all checks happen
before any mutation (spec section 4.1).  The macro-provided `ft_transfer`
body is not in src/. -/
def internal_transfer (t : FungibleToken) (sender receiver : AccountId)
    (amount : Nat) : Except FtError FungibleToken :=
  if sender = receiver then .error .SelfTransfer
  else if amount = 0 then .error .ZeroAmount
  else
    match internal_withdraw t sender amount with
    | .error e => .error e
    | .ok t1 =>
      match lookupBal t1.accounts receiver with
      | none => .error .ReceiverNotRegistered
      | some _ => internal_deposit t1 receiver amount

/-- Outcome of the `ft_on_transfer` call on the receiver, as delivered by the
host to the resolution callback: either the receiver completed and reported
an unused amount, or the call to the receiver failed (spec section 4.3). -/
inductive PromiseResult where
  | Successful (unused : Nat)
  | Failed
  deriving DecidableEq, Repr

/-- Modelled from the spec: how much of `amount` the receiver reports as
unused, clamped to `amount`; a failed receiver call counts as all of it
unused (spec section 4.3 failure semantics). -/
def resolve_unused (amount : Nat) (r : PromiseResult) : Nat :=
  match r with
  | .Successful v => min amount v
  | .Failed => amount

/-- The refund actually applied by the resolution: the reported unused
portion clamped to the current balance of the receiver (spec section 4.3). -/
def resolve_refund (t : FungibleToken) (receiver : AccountId) (amount : Nat)
    (r : PromiseResult) : Nat :=
  min (ft_balance_of t receiver) (resolve_unused amount r)

/-- Modelled from the spec: `resolve_transfer` deducts the reported unused
portion back from the receiver, clamped to the current balance the receiver holds,
and returns it to the sender; the shortfall the receiver no longer holds
is not re-created.  When the refund cannot be credited because the
sender account no longer exists, the refunded portion is burned from the
total supply and reported through `on_tokens_burned` (the hook
`Contract::on_tokens_burned` in src/ lines 86-88).  Returns the new state,
the used amount and the burned amount.  The standards-crate
`internal_ft_resolve_transfer` is not in src/. -/
def internal_ft_resolve_transfer (t : FungibleToken) (sender receiver : AccountId)
    (amount : Nat) (r : PromiseResult) : FungibleToken × Nat × Nat :=
  let unused : Nat := resolve_unused amount r
  if unused = 0 then (t, amount, 0)
  else
    let rb := ft_balance_of t receiver
    if rb = 0 then (t, amount, 0)
    else
      let refund := min rb unused
      let t1 : FungibleToken :=
        { t with accounts := insertBal t.accounts receiver (rb - refund) }
      match lookupBal t1.accounts sender with
      | some sb =>
        ({ t1 with accounts := insertBal t1.accounts sender (sb + refund) },
         amount - refund, 0)
      | none =>
        ({ t1 with total_supply := t1.total_supply - refund }, amount, refund)

/-- Modelled from the spec: `storage_deposit` for a target account with an
attached native-currency deposit and registration cost `min`: if already
registered the whole attached deposit is refunded; if not registered and
`attached >= min`, the account is registered with zero balance, `min` is
consumed and the remainder refunded; if `attached < min` the call fails
with `InsufficientStorageDeposit` and the whole attached deposit is
refunded (spec section 4.2).  Returns the state-or-error and the refund.
The macro-provided `storage_deposit` body is not in src/. -/
def storage_deposit (t : FungibleToken) (a : AccountId)
    (attached min : Nat) : Except FtError FungibleToken × Nat :=
  match lookupBal t.accounts a with
  | some _ => (.ok t, attached)
  | none =>
    if min ≤ attached then
      (.ok { t with accounts := t.accounts ++ [(a, 0)] }, attached - min)
    else
      (.error .InsufficientStorageDeposit, attached)

/-- Modelled from the spec: `storage_unregister(account, force)` removes
the entry; fails with `NonZeroBalance` unless `force` is set or the balance
is zero; a forced removal with nonzero balance burns that balance from the
total supply; fails with `NotRegistered` if absent (spec sections 4.1 and
4.2).  Returns the new state and the burned balance.  The macro-provided
`storage_unregister` body is not in src/. -/
def storage_unregister (t : FungibleToken) (a : AccountId) (force : Bool) :
    Except FtError (FungibleToken × Nat) :=
  match lookupBal t.accounts a with
  | none => .error .NotRegistered
  | some b =>
    if b = 0 ∨ force then
      .ok ({ accounts := removeBal t.accounts a,
             total_supply := t.total_supply - b }, b)
    else
      .error .NonZeroBalance

/-- The embedded SVG icon constant `DATA_IMAGE_SVG_NEAR_ICON` from src/ line 34 (apostrophes written as escapes). -/
def DATA_IMAGE_SVG_NEAR_ICON : String :=
  "data:image/svg+xml,%3Csvg width=\x27373\x27 height=\x27373\x27 viewBox=\x270 0 373 373\x27 fill=\x27none\x27 xmlns=\x27http://www.w3.org/2000/svg\x27%3E%3Cg filter=\x27url(%23filter0_ii_2016_186744)\x27%3E%3Ccircle cx=\x27186.432\x27 cy=\x27186.432\x27 r=\x27173.432\x27 fill=\x27url(%23paint0_linear_2016_186744)\x27/%3E%3C/g%3E%3Ccircle cx=\x27186.432\x27 cy=\x27186.432\x27 r=\x27179.856\x27 stroke=\x27url(%23paint1_linear_2016_186744)\x27 stroke-width=\x2712.8468\x27/%3E%3Cpath fill-rule=\x27evenodd\x27 clip-rule=\x27evenodd\x27 d=\x27M218.981 204.243H231.074L272.216 233.785H292.045L251.038 204.243H259.536C264.033 204.243 268.259 203.389 272.216 201.68C276.173 199.972 279.59 197.679 282.468 194.801C285.435 191.833 287.774 188.371 289.482 184.414C291.191 180.457 292.045 176.231 292.045 171.734C292.045 167.238 291.191 163.056 289.482 159.189C287.774 155.233 285.435 151.815 282.468 148.938C279.59 145.97 276.173 143.632 272.216 141.923C268.259 140.215 264.033 139.36 259.536 139.36H174.015V151.096H259.536C262.414 151.096 265.112 151.636 267.63 152.715C270.148 153.794 272.306 155.278 274.105 157.166C275.993 159.055 277.477 161.258 278.556 163.776C279.635 166.204 280.175 168.857 280.175 171.734C280.175 174.612 279.635 177.31 278.556 179.828C277.477 182.346 275.993 184.549 274.105 186.438C272.306 188.326 270.148 189.81 267.63 190.889C265.112 191.968 262.414 192.508 259.536 192.508H203.439L218.981 204.243Z\x27 fill=\x27white\x27/%3E%3Cpath d=\x27M231.074 204.243L234.821 199.026L233.141 197.82H231.074V204.243ZM218.981 204.243L215.11 209.37L216.828 210.667H218.981V204.243ZM272.216 233.785L268.47 239.002L270.149 240.208H272.216V233.785ZM292.045 233.785V240.208H311.951L295.8 228.573L292.045 233.785ZM251.038 204.243V197.82H231.132L247.283 209.455L251.038 204.243ZM272.216 201.68L274.763 207.578L274.763 207.578L272.216 201.68ZM282.468 194.801L287.01 199.343V199.343L282.468 194.801ZM289.482 184.414L283.585 181.868V181.868L289.482 184.414ZM289.482 159.189L283.585 161.736L283.596 161.761L283.607 161.786L289.482 159.189ZM282.468 148.938L277.856 153.409L277.925 153.48L277.996 153.549L282.468 148.938ZM272.216 141.923L274.763 136.026L274.763 136.026L272.216 141.923ZM174.015 139.36V132.937H167.591V139.36H174.015ZM174.015 151.096H167.591V157.519H174.015V151.096ZM267.63 152.715L265.099 158.619L265.099 158.619L267.63 152.715ZM274.105 157.166L269.453 161.596L269.507 161.653L269.563 161.708L274.105 157.166ZM278.556 163.776L272.652 166.306L272.669 166.345L272.686 166.385L278.556 163.776ZM274.105 186.438L269.563 181.896L269.507 181.951L269.453 182.008L274.105 186.438ZM267.63 190.889L265.099 184.985L265.099 184.985L267.63 190.889ZM203.439 192.508V186.084H184.273L199.568 197.634L203.439 192.508ZM231.074 197.82H218.981V210.667H231.074V197.82ZM275.963 228.567L234.821 199.026L227.328 209.461L268.47 239.002L275.963 228.567ZM292.045 227.361H272.216V240.208H292.045V227.361ZM247.283 209.455L288.291 238.997L295.8 228.573L254.793 199.032L247.283 209.455ZM259.536 197.82H251.038V210.667H259.536V197.82ZM269.67 195.783C266.552 197.13 263.195 197.82 259.536 197.82V210.667C264.87 210.667 269.967 209.648 274.763 207.578L269.67 195.783ZM277.926 190.259C275.655 192.53 272.926 194.377 269.67 195.783L274.763 207.578C279.42 205.566 283.525 202.828 287.01 199.343L277.926 190.259ZM283.585 181.868C282.189 185.1 280.304 187.88 277.926 190.259L287.01 199.343C290.567 195.786 293.358 191.642 295.379 186.961L283.585 181.868ZM285.622 171.734C285.622 175.394 284.932 178.75 283.585 181.868L295.379 186.961C297.45 182.165 298.469 177.068 298.469 171.734H285.622ZM283.607 161.786C284.931 164.783 285.622 168.074 285.622 171.734H298.469C298.469 166.402 297.45 161.329 295.358 156.593L283.607 161.786ZM277.996 153.549C280.332 155.814 282.197 158.521 283.585 161.736L295.379 156.643C293.35 151.945 290.539 147.817 286.939 144.326L277.996 153.549ZM269.67 147.82C272.885 149.209 275.592 151.074 277.856 153.409L287.079 144.466C283.589 140.866 279.461 138.055 274.763 136.026L269.67 147.82ZM259.536 145.784C263.195 145.784 266.552 146.474 269.67 147.82L274.763 136.026C269.967 133.955 264.87 132.937 259.536 132.937V145.784ZM174.015 145.784H259.536V132.937H174.015V145.784ZM180.438 151.096V139.36H167.591V151.096H180.438ZM259.536 144.673H174.015V157.519H259.536V144.673ZM270.16 146.811C266.802 145.372 263.239 144.673 259.536 144.673V157.519C261.589 157.519 263.421 157.899 265.099 158.619L270.16 146.811ZM278.756 152.736C276.327 150.186 273.437 148.215 270.16 146.811L265.099 158.619C266.859 159.373 268.285 160.369 269.453 161.596L278.756 152.736ZM284.46 161.245C283.067 157.996 281.128 155.105 278.647 152.624L269.563 161.708C270.858 163.004 271.886 164.519 272.652 166.306L284.46 161.245ZM286.598 171.734C286.598 168.034 285.899 164.483 284.426 161.167L272.686 166.385C273.371 167.925 273.751 169.68 273.751 171.734H286.598ZM284.46 182.358C285.899 179.001 286.598 175.437 286.598 171.734H273.751C273.751 173.787 273.371 175.619 272.652 177.298L284.46 182.358ZM278.647 190.98C281.128 188.498 283.067 185.608 284.46 182.358L272.652 177.298C271.886 179.084 270.858 180.6 269.563 181.896L278.647 190.98ZM270.16 196.793C273.437 195.389 276.327 193.418 278.756 190.868L269.453 182.008C268.285 183.235 266.859 184.231 265.099 184.985L270.16 196.793ZM259.536 198.931C263.239 198.931 266.802 198.232 270.16 196.793L265.099 184.985C263.421 185.704 261.589 186.084 259.536 186.084V198.931ZM203.439 198.931H259.536V186.084H203.439V198.931ZM199.568 197.634L215.11 209.37L222.852 199.117L207.31 187.382L199.568 197.634Z\x27 fill=\x27white\x27/%3E%3Cpath fill-rule=\x27evenodd\x27 clip-rule=\x27evenodd\x27 d=\x27M183.412 209.779C183.239 211.107 182.873 212.393 182.314 213.635C181.595 215.434 180.561 217.007 179.212 218.356C177.863 219.705 176.289 220.784 174.49 221.594C172.692 222.313 170.758 222.673 168.69 222.673H103.807C101.829 222.673 99.9402 222.313 98.1416 221.594C96.3431 220.784 94.7693 219.705 93.4204 218.356C92.0715 217.007 90.9924 215.434 90.183 213.635C89.4636 211.837 89.1039 209.948 89.1039 207.97V140.119H77.2334V207.97C77.2334 211.657 77.9079 215.119 79.2568 218.356C80.6956 221.594 82.5841 224.426 84.9222 226.855C87.3503 229.193 90.183 231.081 93.4204 232.52C96.6578 233.869 100.12 234.543 103.807 234.543H168.69C172.377 234.543 175.839 233.869 179.077 232.52C182.314 231.081 185.102 229.193 187.44 226.855C189.868 224.426 191.757 221.594 193.106 218.356C193.221 218.098 193.331 217.837 193.437 217.576L183.412 209.779Z\x27 fill=\x27white\x27/%3E%3Cpath d=\x27M182.314 213.635L176.457 210.999L176.401 211.123L176.35 211.25L182.314 213.635ZM183.412 209.779L187.356 204.708L178.491 197.814L177.042 208.95L183.412 209.779ZM179.212 218.356L183.754 222.898L183.754 222.898L179.212 218.356ZM174.49 221.594L176.876 227.558L177.002 227.507L177.126 227.451L174.49 221.594ZM98.1416 221.594L95.5057 227.451L95.6298 227.507L95.7561 227.558L98.1416 221.594ZM93.4204 218.356L88.8784 222.898L88.8784 222.898L93.4204 218.356ZM90.183 213.635L84.219 216.021L84.2695 216.147L84.3254 216.271L90.183 213.635ZM89.1039 140.119H95.5273V133.696H89.1039V140.119ZM77.2334 140.119V133.696H70.81V140.119H77.2334ZM79.2568 218.356L73.3275 220.827L73.3564 220.896L73.387 220.965L79.2568 218.356ZM84.9222 226.855L80.2953 231.31L80.3794 231.397L80.4667 231.481L84.9222 226.855ZM93.4204 232.52L90.8116 238.39L90.8804 238.42L90.9499 238.449L93.4204 232.52ZM179.077 232.52L181.547 238.449L181.617 238.42L181.686 238.39L179.077 232.52ZM193.106 218.356L187.236 215.748L187.205 215.816L187.176 215.886L193.106 218.356ZM193.437 217.576L199.392 219.984L201.211 215.485L197.38 212.505L193.437 217.576ZM188.172 216.271C188.985 214.464 189.526 212.571 189.782 210.607L177.042 208.95C176.952 209.643 176.762 210.321 176.457 210.999L188.172 216.271ZM183.754 222.898C185.727 220.925 187.241 218.614 188.278 216.021L176.35 211.25C175.949 212.253 175.394 213.09 174.67 213.814L183.754 222.898ZM177.126 227.451C179.61 226.334 181.836 224.816 183.754 222.898L174.67 213.814C173.89 214.594 172.968 215.235 171.855 215.736L177.126 227.451ZM168.69 229.096C171.52 229.096 174.269 228.601 176.876 227.558L172.105 215.63C171.115 216.026 169.997 216.249 168.69 216.249V229.096ZM103.807 229.096H168.69V216.249H103.807V229.096ZM95.7561 227.558C98.3297 228.587 101.029 229.096 103.807 229.096V216.249C102.628 216.249 101.551 216.039 100.527 215.63L95.7561 227.558ZM88.8784 222.898C90.7963 224.816 93.0217 226.334 95.5057 227.451L100.778 215.736C99.6644 215.235 98.7424 214.594 97.9625 213.814L88.8784 222.898ZM84.3254 216.271C85.4431 218.755 86.9604 220.98 88.8784 222.898L97.9625 213.814C97.1826 213.034 96.5416 212.112 96.0407 210.999L84.3254 216.271ZM82.6805 207.97C82.6805 210.747 83.1896 213.447 84.219 216.021L96.147 211.25C95.7376 210.226 95.5273 209.149 95.5273 207.97H82.6805ZM82.6805 140.119V207.97H95.5273V140.119H82.6805ZM77.2334 146.542H89.1039V133.696H77.2334V146.542ZM83.6568 207.97V140.119H70.81V207.97H83.6568ZM85.1861 215.886C84.1799 213.471 83.6568 210.853 83.6568 207.97H70.81C70.81 212.461 71.6358 216.767 73.3275 220.827L85.1861 215.886ZM89.5492 222.399C87.7557 220.537 86.2774 218.337 85.1266 215.748L73.387 220.965C75.1138 224.851 77.4125 228.316 80.2953 231.31L89.5492 222.399ZM96.0292 226.65C93.4398 225.499 91.2402 224.021 89.3778 222.228L80.4667 231.481C83.4604 234.364 86.9262 236.663 90.8116 238.39L96.0292 226.65ZM103.807 228.12C100.924 228.12 98.3057 227.597 95.891 226.591L90.9499 238.449C95.0099 240.141 99.3162 240.967 103.807 240.967V228.12ZM168.69 228.12H103.807V240.967H168.69V228.12ZM176.606 226.591C174.191 227.597 171.573 228.12 168.69 228.12V240.967C173.181 240.967 177.487 240.141 181.547 238.449L176.606 226.591ZM182.898 222.312C181.156 224.054 179.037 225.509 176.468 226.65L181.686 238.39C185.592 236.654 189.048 234.331 191.982 231.397L182.898 222.312ZM187.176 215.886C186.143 218.366 184.72 220.491 182.898 222.312L191.982 231.397C195.016 228.362 197.37 224.822 199.035 220.827L187.176 215.886ZM187.482 215.167C187.403 215.361 187.321 215.555 187.236 215.748L198.975 220.965C199.12 220.64 199.259 220.313 199.392 219.984L187.482 215.167ZM197.38 212.505L187.356 204.708L179.469 214.849L189.493 222.646L197.38 212.505Z\x27 fill=\x27white\x27/%3E%3Cdefs%3E%3Cfilter id=\x27filter0_ii_2016_186744\x27 x=\x270.153198\x27 y=\x27-24.8468\x27 width=\x27372.558\x27 height=\x27423.252\x27 filterUnits=\x27userSpaceOnUse\x27 color-interpolation-filters=\x27sRGB\x27%3E%3CfeFlood flood-opacity=\x270\x27 result=\x27BackgroundImageFix\x27/%3E%3CfeBlend mode=\x27normal\x27 in=\x27SourceGraphic\x27 in2=\x27BackgroundImageFix\x27 result=\x27shape\x27/%3E%3CfeColorMatrix in=\x27SourceAlpha\x27 type=\x27matrix\x27 values=\x270 0 0 0 0 0 0 0 0 0 0 0 0 0 0 0 0 0 127 0\x27 result=\x27hardAlpha\x27/%3E%3CfeOffset dy=\x2725.6937\x27/%3E%3CfeGaussianBlur stdDeviation=\x2712.8468\x27/%3E%3CfeComposite in2=\x27hardAlpha\x27 operator=\x27arithmetic\x27 k2=\x27-1\x27 k3=\x271\x27/%3E%3CfeColorMatrix type=\x27matrix\x27 values=\x270 0 0 0 0 0 0 0 0 0 0 0 0 0 0 0 0 0 0.25 0\x27/%3E%3CfeBlend mode=\x27normal\x27 in2=\x27shape\x27 result=\x27effect1_innerShadow_2016_186744\x27/%3E%3CfeColorMatrix in=\x27SourceAlpha\x27 type=\x27matrix\x27 values=\x270 0 0 0 0 0 0 0 0 0 0 0 0 0 0 0 0 0 127 0\x27 result=\x27hardAlpha\x27/%3E%3CfeOffset dy=\x27-25\x27/%3E%3CfeGaussianBlur stdDeviation=\x2712.5\x27/%3E%3CfeComposite in2=\x27hardAlpha\x27 operator=\x27arithmetic\x27 k2=\x27-1\x27 k3=\x271\x27/%3E%3CfeColorMatrix type=\x27matrix\x27 values=\x270 0 0 0 0 0 0 0 0 0 0 0 0 0 0 0 0 0 0.25 0\x27/%3E%3CfeBlend mode=\x27normal\x27 in2=\x27effect1_innerShadow_2016_186744\x27 result=\x27effect2_innerShadow_2016_186744\x27/%3E%3C/filter%3E%3ClinearGradient id=\x27paint0_linear_2016_186744\x27 x1=\x27186.432\x27 y1=\x2713\x27 x2=\x27186.432\x27 y2=\x27359.865\x27 gradientUnits=\x27userSpaceOnUse\x27%3E%3Cstop stop-color=\x27%234388DD\x27/%3E%3Cstop offset=\x271\x27 stop-color=\x27%23C60286\x27/%3E%3C/linearGradient%3E%3ClinearGradient id=\x27paint1_linear_2016_186744\x27 x1=\x27186.432\x27 y1=\x2713\x27 x2=\x27186.432\x27 y2=\x27359.865\x27 gradientUnits=\x27userSpaceOnUse\x27%3E%3Cstop stop-color=\x27white\x27/%3E%3Cstop offset=\x270.494792\x27 stop-color=\x27%23808080\x27/%3E%3Cstop offset=\x271\x27 stop-color=\x27white\x27/%3E%3C/linearGradient%3E%3C/defs%3E%3C/svg%3E%0A"

/-- Modelled from the spec: `storage_withdraw(account, amount)` refunds
excess storage balance beyond `min` for an already-registered account and
fails with `StorageUnavailable` if nothing is withdrawable (spec section
4.2).  Ledger entries are fixed-size (`max = min` per the storage bounds of
spec section 4.2), so no excess ever exists: a zero withdrawal succeeds
without touching the ledger and a positive one fails.  The macro-provided
`storage_withdraw` body is not in src/. -/
def storage_withdraw (t : FungibleToken) (a : AccountId) (amount : Nat) :
    Except FtError FungibleToken :=
  match lookupBal t.accounts a with
  | none => .error .NotRegistered
  | some _ => if amount = 0 then .ok t else .error .StorageUnavailable

/-- The fungible-token metadata record: spec version, name, symbol,
optional icon, optional reference with hash, and decimals (the metadata
interface of spec section 6 and the literal fields used in src/). -/
structure FungibleTokenMetadata where
  spec : String
  name : String
  symbol : String
  icon : Option String
  reference : Option String
  reference_hash : Option (List Nat)
  decimals : Nat
  deriving DecidableEq, Repr

/-- The metadata spec version string the standards crate exports as
`FT_METADATA_SPEC`. -/
def FT_METADATA_SPEC : String := "ft-1.0.0"

/-- Modelled from the spec: validity of a metadata record as checked by
`metadata.assert_valid()` in `Contract::new` (the check body is not in
src/): the declared spec version must match, and a reference comes with a
32-byte reference hash (both present or both absent). -/
def FungibleTokenMetadata.assert_valid (m : FungibleTokenMetadata) : Bool :=
  m.spec == FT_METADATA_SPEC &&
  m.reference.isSome == m.reference_hash.isSome &&
  (match m.reference_hash with
   | some h => h.length == 32
   | none => true)

/-- The contract state: the token ledger plus the stored metadata
(src/ lines 29-32; the `LazyOption` always holds `Some` of the metadata
passed at initialization, so it is embedded as a plain field). -/
structure Contract where
  token : FungibleToken
  metadata : FungibleTokenMetadata
  deriving DecidableEq, Repr

/-- `Contract::new` (src/ lines 60-80): checks the metadata, builds an
empty ledger, registers the owner and deposits the whole total supply to
the owner (emitting the mint event, observational only). -/
def Contract.new (owner_id : AccountId) (total_supply : Nat)
    (metadata : FungibleTokenMetadata) : Except FtError Contract :=
  if metadata.assert_valid then
    match internal_register_account { accounts := [], total_supply := 0 } owner_id with
    | .error e => .error e
    | .ok t1 =>
      match internal_deposit t1 owner_id total_supply with
      | .error e => .error e
      | .ok t2 => .ok { token := t2, metadata := metadata }
  else .error .InvalidMetadata

/-- The default metadata literal of `Contract::new_default_meta`
(src/ lines 45-53). -/
def default_metadata : FungibleTokenMetadata :=
  { spec := FT_METADATA_SPEC
    name := "URA fungible token"
    symbol := "URA"
    icon := some DATA_IMAGE_SVG_NEAR_ICON
    reference := none
    reference_hash := none
    decimals := 6 }

/-- `Contract::new_default_meta` (src/ lines 41-55): initializes the
contract with the given total supply owned by `owner_id` and the default
metadata. -/
def Contract.new_default_meta (owner_id : AccountId) (total_supply : Nat) :
    Except FtError Contract :=
  Contract.new owner_id total_supply default_metadata

/-- `ft_metadata` (src/ lines 96-98): returns the stored metadata. -/
def Contract.ft_metadata (c : Contract) : FungibleTokenMetadata := c.metadata

/-- The host-level initialization guard: `Contract::new` runs under
`assert!(!env::state_exists(), "Already initialized")` (src/ line 65).
The persisted contract state is `none` before initialization; a completed
call returns the new state and the error, the state being unchanged when
the call fails. -/
def init_contract (st : Option Contract) (owner_id : AccountId)
    (total_supply : Nat) (metadata : FungibleTokenMetadata) :
    Option Contract × Option FtError :=
  match st with
  | some c => (some c, some .AlreadyInitialized)
  | none =>
    match Contract.new owner_id total_supply metadata with
    | .ok c => (some c, none)
    | .error e => (none, some e)

/-- The ledger-mutating operations available after initialization:
synchronous transfer, the eager phase of transfer-and-call, its resolution
callback, storage deposit (with the attached deposit and the host-derived
registration cost), and storage unregistration. -/
inductive Op where
  | transfer (sender receiver : AccountId) (amount : Nat)
  | transfer_call (sender receiver : AccountId) (amount : Nat)
  | resolve_transfer (sender receiver : AccountId) (amount : Nat) (r : PromiseResult)
  | storage_deposit (a : AccountId) (attached mincost : Nat)
  | storage_withdraw (a : AccountId) (amount : Nat)
  | storage_unregister (a : AccountId) (force : Bool)
  deriving DecidableEq, Repr

/-- Modelled from the spec: one completed call against the token state.
Per the propagation policy (spec section 7) a failed call has no partial
effect, so the state is unchanged on error.  The eager phase of
`transfer_call` reserves the amount exactly like a synchronous transfer
(spec section 4.3). -/
def FungibleToken.applyOp (t : FungibleToken) (op : Op) : FungibleToken :=
  match op with
  | .transfer s r a =>
    match internal_transfer t s r a with
    | .ok t2 => t2
    | .error _ => t
  | .transfer_call s r a =>
    match internal_transfer t s r a with
    | .ok t2 => t2
    | .error _ => t
  | .resolve_transfer s r a pr => (internal_ft_resolve_transfer t s r a pr).1
  | .storage_deposit a att mn =>
    match storage_deposit t a att mn with
    | (.ok t2, _) => t2
    | (.error _, _) => t
  | .storage_withdraw a amount =>
    match storage_withdraw t a amount with
    | .ok t2 => t2
    | .error _ => t
  | .storage_unregister a f =>
    match storage_unregister t a f with
    | .ok (t2, _) => t2
    | .error _ => t

/-- One completed call against the whole contract state: every ledger or
storage operation only touches the `token` field. -/
def Contract.applyOp (c : Contract) (op : Op) : Contract :=
  { c with token := c.token.applyOp op }

/-- A sequence of completed calls, applied left to right. -/
def Contract.applyOps (c : Contract) (ops : List Op) : Contract :=
  ops.foldl Contract.applyOp c

/-- The fixed default metadata exactly as the specification of
`new_default_meta` describes it: spec version `FT_METADATA_SPEC`, name
"URA fungible token", symbol "URA", the embedded SVG icon, no reference,
and 6 decimals.  Written independently of `default_metadata` to compare
the two. -/
def spec_default_metadata : FungibleTokenMetadata :=
  { spec := FT_METADATA_SPEC
    name := "URA fungible token"
    symbol := "URA"
    icon := some DATA_IMAGE_SVG_NEAR_ICON
    reference := none
    reference_hash := none
    decimals := 6 }

/-- A concrete valid metadata record, used by concrete instantiations. -/
def mdW : FungibleTokenMetadata :=
  { spec := FT_METADATA_SPEC
    name := "T"
    symbol := "T"
    icon := none
    reference := none
    reference_hash := none
    decimals := 6 }

/-- The contract state produced by initializing with owner "owner" and
total supply 100 under `mdW`. -/
def cW : Contract :=
  { token := { accounts := [("owner", 100)], total_supply := 100 }
    metadata := mdW }

/-- A sample operation sequence exercising every operation kind, including
a final transfer that fails because the receiver was unregistered. -/
def opsW : List Op :=
  [.storage_deposit "bob" 10 3, .transfer "owner" "bob" 30,
   .transfer_call "owner" "bob" 7, .resolve_transfer "owner" "bob" 7 (.Successful 5),
   .storage_withdraw "bob" 0, .storage_unregister "bob" true,
   .transfer "owner" "bob" 1]

/-- A sample operation sequence for the metadata-frame instantiation. -/
def opsM : List Op :=
  [.storage_deposit "carol" 9 3, .transfer "owner" "carol" 4,
   .storage_withdraw "carol" 1, .storage_unregister "carol" false]

/-- A concrete two-account ledger for transfer instantiations. -/
def tW : FungibleToken :=
  { accounts := [("alice", 10), ("bob", 5)], total_supply := 15 }

/-- `tW` after transferring 3 from "alice" to "bob". -/
def tW1 : FungibleToken :=
  { accounts := [("alice", 7), ("bob", 8)], total_supply := 15 }

/-- `tW1` after transferring 3 back from "bob" to "alice". -/
def tW2 : FungibleToken :=
  { accounts := [("alice", 10), ("bob", 5)], total_supply := 15 }

/-- A concrete ledger where the receiver of a resolved transfer-call holds
only part of the reported unused amount. -/
def tR : FungibleToken :=
  { accounts := [("alice", 7), ("bob", 3)], total_supply := 10 }

theorem lookupBal_insertBal_self (l : List (AccountId × Nat)) (a : AccountId) (v : Nat) :
    lookupBal (insertBal l a v) a = some v := by
  induction l with
  | nil => simp [insertBal, lookupBal]
  | cons p rest ih =>
    obtain ⟨k, w⟩ := p
    by_cases h : k = a
    · subst h; simp [insertBal, lookupBal]
    · simp [insertBal, lookupBal, h, ih]

theorem lookupBal_insertBal_other (l : List (AccountId × Nat)) (a x : AccountId) (v : Nat)
    (hx : x ≠ a) : lookupBal (insertBal l a v) x = lookupBal l x := by
  induction l with
  | nil => simp [insertBal, lookupBal, Ne.symm hx]
  | cons p rest ih =>
    obtain ⟨k, w⟩ := p
    by_cases h : k = a
    · subst h; simp [insertBal, lookupBal, Ne.symm hx]
    · simp [insertBal, lookupBal, h, ih]

theorem sumBal_cons (k : AccountId) (w : Nat) (rest : List (AccountId × Nat)) :
    sumBal ((k, w) :: rest) = w + sumBal rest := by
  simp [sumBal]

theorem sumBal_insertBal (l : List (AccountId × Nat)) (a : AccountId) (v b : Nat)
    (h : lookupBal l a = some b) :
    sumBal (insertBal l a v) + b = sumBal l + v := by
  induction l with
  | nil => simp [lookupBal] at h
  | cons p rest ih =>
    obtain ⟨k, w⟩ := p
    by_cases hk : k = a
    · subst hk
      simp [lookupBal] at h
      subst h
      simp [insertBal, sumBal]
      omega
    · simp [lookupBal, hk] at h
      rw [show insertBal ((k, w) :: rest) a v = (k, w) :: insertBal rest a v from by
        simp [insertBal, hk]]
      rw [sumBal_cons, sumBal_cons]
      have := ih h
      omega

theorem sumBal_append_single (l : List (AccountId × Nat)) (a : AccountId) (v : Nat) :
    sumBal (l ++ [(a, v)]) = sumBal l + v := by
  simp [sumBal]

theorem lookupBal_append_some (l : List (AccountId × Nat)) (x a : AccountId) (v b : Nat)
    (h : lookupBal l x = some b) : lookupBal (l ++ [(a, v)]) x = some b := by
  induction l with
  | nil => simp [lookupBal] at h
  | cons p rest ih =>
    obtain ⟨k, w⟩ := p
    by_cases hk : k = x
    · subst hk
      simp [lookupBal] at h ⊢
      exact h
    · simp [lookupBal, hk] at h ⊢
      exact ih h

theorem lookupBal_append_none (l : List (AccountId × Nat)) (x a : AccountId) (v : Nat)
    (h : lookupBal l x = none) :
    lookupBal (l ++ [(a, v)]) x = if a = x then some v else none := by
  induction l with
  | nil => simp [lookupBal]
  | cons p rest ih =>
    obtain ⟨k, w⟩ := p
    by_cases hk : k = x
    · simp [lookupBal, hk] at h
    · simp [lookupBal, hk] at h ⊢
      exact ih h

theorem lookupBal_removeBal_other (l : List (AccountId × Nat)) (a x : AccountId)
    (hx : x ≠ a) : lookupBal (removeBal l a) x = lookupBal l x := by
  induction l with
  | nil => simp [removeBal]
  | cons p rest ih =>
    obtain ⟨k, w⟩ := p
    by_cases hk : k = a
    · subst hk; simp [removeBal, lookupBal, Ne.symm hx]
    · simp [removeBal, lookupBal, hk, ih]

theorem sumBal_removeBal (l : List (AccountId × Nat)) (a : AccountId) (b : Nat)
    (h : lookupBal l a = some b) :
    sumBal (removeBal l a) + b = sumBal l := by
  induction l with
  | nil => simp [lookupBal] at h
  | cons p rest ih =>
    obtain ⟨k, w⟩ := p
    by_cases hk : k = a
    · subst hk
      simp [lookupBal] at h
      subst h
      simp [removeBal, sumBal]
      omega
    · simp [lookupBal, hk] at h
      rw [show removeBal ((k, w) :: rest) a = (k, w) :: removeBal rest a from by
        simp [removeBal, hk]]
      rw [sumBal_cons, sumBal_cons]
      have := ih h
      omega

theorem ft_balance_of_eq_of_lookup (t : FungibleToken) (a : AccountId) (b : Nat)
    (h : lookupBal t.accounts a = some b) : ft_balance_of t a = b := by
  simp [ft_balance_of, h]

theorem ft_balance_of_of_lookup_none (t : FungibleToken) (a : AccountId)
    (h : lookupBal t.accounts a = none) : ft_balance_of t a = 0 := by
  simp [ft_balance_of, h]

theorem lookup_eq_some_balance (t : FungibleToken) (a : AccountId)
    (h : ft_balance_of t a ≠ 0) :
    lookupBal t.accounts a = some (ft_balance_of t a) := by
  cases hl : lookupBal t.accounts a with
  | none => simp [ft_balance_of, hl] at h
  | some b => simp [ft_balance_of, hl]

theorem internal_register_account_ok (t t2 : FungibleToken) (a : AccountId)
    (h : internal_register_account t a = .ok t2) :
    lookupBal t.accounts a = none ∧ t2.accounts = t.accounts ++ [(a, 0)] ∧
      t2.total_supply = t.total_supply := by
  unfold internal_register_account at h
  split at h
  · exact Except.noConfusion h
  · next hl =>
    injection h with h
    exact ⟨hl, by rw [← h], by rw [← h]⟩

theorem internal_deposit_ok (t t2 : FungibleToken) (a : AccountId) (amt : Nat)
    (h : internal_deposit t a amt = .ok t2) :
    ∃ b, lookupBal t.accounts a = some b ∧
      t2.accounts = insertBal t.accounts a (b + amt) ∧
      t2.total_supply = t.total_supply + amt := by
  unfold internal_deposit at h
  split at h
  · exact Except.noConfusion h
  · next b hl =>
    split at h
    · exact Except.noConfusion h
    · split at h
      · exact Except.noConfusion h
      · injection h with h
        exact ⟨b, hl, by rw [← h], by rw [← h]⟩

theorem internal_withdraw_ok (t t2 : FungibleToken) (a : AccountId) (amt : Nat)
    (h : internal_withdraw t a amt = .ok t2) :
    ∃ b, lookupBal t.accounts a = some b ∧ amt ≤ b ∧
      t2.accounts = insertBal t.accounts a (b - amt) ∧
      t2.total_supply = t.total_supply - amt := by
  unfold internal_withdraw at h
  split at h
  · exact Except.noConfusion h
  · next b hl =>
    split at h
    · exact Except.noConfusion h
    · next hb =>
      injection h with h
      exact ⟨b, hl, Nat.le_of_not_lt hb, by rw [← h], by rw [← h]⟩

theorem internal_transfer_ok_balances (t t2 : FungibleToken) (s r : AccountId) (amt : Nat)
    (h : internal_transfer t s r amt = .ok t2) :
    s ≠ r ∧ 0 < amt ∧
    ∃ bs br, lookupBal t.accounts s = some bs ∧ lookupBal t.accounts r = some br ∧
      amt ≤ bs ∧ lookupBal t2.accounts s = some (bs - amt) ∧
      lookupBal t2.accounts r = some (br + amt) ∧
      t2.total_supply = t.total_supply - amt + amt := by
  unfold internal_transfer at h
  split at h
  · exact Except.noConfusion h
  · next hsr =>
    split at h
    · exact Except.noConfusion h
    · next hz =>
      split at h
      · exact Except.noConfusion h
      · next t1 hw =>
        split at h
        · exact Except.noConfusion h
        · next br1 hr1 =>
          obtain ⟨bs, hls, hle, hacc1, hsup1⟩ := internal_withdraw_ok t t1 s amt hw
          obtain ⟨b2, hlb2, hacc2, hsup2⟩ := internal_deposit_ok t1 t2 r amt h
          have hrs : r ≠ s := fun hh => hsr hh.symm
          have hr0 : lookupBal t.accounts r = some br1 := by
            rw [hacc1, lookupBal_insertBal_other _ _ _ _ hrs] at hr1
            exact hr1
          have hb2 : b2 = br1 := by
            rw [hlb2] at hr1
            injection hr1
          refine ⟨hsr, Nat.pos_of_ne_zero hz, bs, br1, hls, hr0, hle, ?_, ?_, ?_⟩
          · rw [hacc2, lookupBal_insertBal_other _ _ _ _ (fun hh => hsr hh),
              hacc1, lookupBal_insertBal_self]
          · rw [hacc2, lookupBal_insertBal_self, hb2]
          · rw [hsup2, hsup1]

theorem storage_deposit_ok (t t2 : FungibleToken) (a : AccountId) (att mn ref : Nat)
    (h : storage_deposit t a att mn = (.ok t2, ref)) :
    t2 = t ∨ (lookupBal t.accounts a = none ∧ t2.accounts = t.accounts ++ [(a, 0)] ∧
      t2.total_supply = t.total_supply) := by
  unfold storage_deposit at h
  split at h
  · injection h with h1 h2
    injection h1 with h1
    exact .inl h1.symm
  · next hl =>
    split at h
    · injection h with h1 h2
      injection h1 with h1
      exact .inr ⟨hl, by rw [← h1], by rw [← h1]⟩
    · injection h with h1 h2
      exact Except.noConfusion h1

theorem storage_unregister_ok (t t2 : FungibleToken) (a : AccountId) (f : Bool)
    (burned : Nat) (h : storage_unregister t a f = .ok (t2, burned)) :
    lookupBal t.accounts a = some burned ∧ t2.accounts = removeBal t.accounts a ∧
      t2.total_supply = t.total_supply - burned := by
  unfold storage_unregister at h
  split at h
  · exact Except.noConfusion h
  · next b hl =>
    split at h
    · injection h with h
      injection h with h1 h2
      subst h2
      exact ⟨hl, by rw [← h1], by rw [← h1]⟩
    · exact Except.noConfusion h

/-- The conservation invariant of spec sections 3 and 8: the sum of all
ledger entries equals the stored total supply. -/
def supply_conserved (t : FungibleToken) : Prop :=
  sumBal t.accounts = t.total_supply

theorem internal_register_account_conserves {t t2 : FungibleToken} {a : AccountId}
    (h : internal_register_account t a = .ok t2) (hc : supply_conserved t) :
    supply_conserved t2 := by
  obtain ⟨hl, hacc, hsup⟩ := internal_register_account_ok t t2 a h
  unfold supply_conserved at *
  rw [hacc, hsup, sumBal_append_single]
  omega

theorem internal_deposit_conserves {t t2 : FungibleToken} {a : AccountId} {amt : Nat}
    (h : internal_deposit t a amt = .ok t2) (hc : supply_conserved t) :
    supply_conserved t2 := by
  obtain ⟨b, hl, hacc, hsup⟩ := internal_deposit_ok t t2 a amt h
  have hs := sumBal_insertBal t.accounts a (b + amt) b hl
  unfold supply_conserved at *
  rw [hacc, hsup]
  omega

theorem internal_withdraw_conserves {t t2 : FungibleToken} {a : AccountId} {amt : Nat}
    (h : internal_withdraw t a amt = .ok t2) (hc : supply_conserved t) :
    supply_conserved t2 := by
  obtain ⟨b, hl, hle, hacc, hsup⟩ := internal_withdraw_ok t t2 a amt h
  have hs := sumBal_insertBal t.accounts a (b - amt) b hl
  unfold supply_conserved at *
  rw [hacc, hsup]
  omega

theorem internal_transfer_conserves {t t2 : FungibleToken} {s r : AccountId} {amt : Nat}
    (h : internal_transfer t s r amt = .ok t2) (hc : supply_conserved t) :
    supply_conserved t2 := by
  unfold internal_transfer at h
  split at h
  · exact Except.noConfusion h
  · split at h
    · exact Except.noConfusion h
    · split at h
      · exact Except.noConfusion h
      · next t1 hw =>
        split at h
        · exact Except.noConfusion h
        · exact internal_deposit_conserves h (internal_withdraw_conserves hw hc)

theorem internal_ft_resolve_transfer_conserves (t : FungibleToken) (s r : AccountId)
    (amount : Nat) (pr : PromiseResult) (hc : supply_conserved t) :
    supply_conserved (internal_ft_resolve_transfer t s r amount pr).1 := by
  unfold internal_ft_resolve_transfer
  dsimp only
  split
  · exact hc
  · split
    · exact hc
    · next hrb =>
      split
      · next sb hsb =>
        have hlr : lookupBal t.accounts r = some (ft_balance_of t r) :=
          lookup_eq_some_balance t r hrb
        have h1 := sumBal_insertBal t.accounts r
          (ft_balance_of t r - min (ft_balance_of t r) (resolve_unused amount pr))
          (ft_balance_of t r) hlr
        have h2 := sumBal_insertBal
          (insertBal t.accounts r
            (ft_balance_of t r - min (ft_balance_of t r) (resolve_unused amount pr)))
          s (sb + min (ft_balance_of t r) (resolve_unused amount pr)) sb hsb
        have hmin : min (ft_balance_of t r) (resolve_unused amount pr) ≤
            ft_balance_of t r := Nat.min_le_left _ _
        unfold supply_conserved at *
        dsimp only at h2 ⊢
        omega
      · next hnone =>
        have hlr : lookupBal t.accounts r = some (ft_balance_of t r) :=
          lookup_eq_some_balance t r hrb
        have h1 := sumBal_insertBal t.accounts r
          (ft_balance_of t r - min (ft_balance_of t r) (resolve_unused amount pr))
          (ft_balance_of t r) hlr
        have hmin : min (ft_balance_of t r) (resolve_unused amount pr) ≤
            ft_balance_of t r := Nat.min_le_left _ _
        unfold supply_conserved at *
        dsimp only
        omega

theorem storage_deposit_conserves {t t2 : FungibleToken} {a : AccountId}
    {att mn ref : Nat} (h : storage_deposit t a att mn = (.ok t2, ref))
    (hc : supply_conserved t) : supply_conserved t2 := by
  rcases storage_deposit_ok t t2 a att mn ref h with heq | ⟨hl, hacc, hsup⟩
  · rw [heq]; exact hc
  · unfold supply_conserved at *
    rw [hacc, hsup, sumBal_append_single]
    omega

theorem storage_unregister_conserves {t t2 : FungibleToken} {a : AccountId}
    {f : Bool} {burned : Nat} (h : storage_unregister t a f = .ok (t2, burned))
    (hc : supply_conserved t) : supply_conserved t2 := by
  obtain ⟨hl, hacc, hsup⟩ := storage_unregister_ok t t2 a f burned h
  have hs := sumBal_removeBal t.accounts a burned hl
  unfold supply_conserved at *
  rw [hacc, hsup]
  omega

theorem storage_withdraw_ok (t t2 : FungibleToken) (a : AccountId) (amount : Nat)
    (h : storage_withdraw t a amount = .ok t2) : t2 = t := by
  unfold storage_withdraw at h
  split at h
  · exact Except.noConfusion h
  · split at h
    · injection h with h
      exact h.symm
    · exact Except.noConfusion h

theorem FungibleToken.applyOp_conserves (t : FungibleToken) (op : Op)
    (hc : supply_conserved t) : supply_conserved (t.applyOp op) := by
  cases op with
  | transfer s r a =>
    simp only [FungibleToken.applyOp]
    split
    · next h => exact internal_transfer_conserves h hc
    · exact hc
  | transfer_call s r a =>
    simp only [FungibleToken.applyOp]
    split
    · next h => exact internal_transfer_conserves h hc
    · exact hc
  | resolve_transfer s r a pr =>
    exact internal_ft_resolve_transfer_conserves t s r a pr hc
  | storage_deposit a att mn =>
    simp only [FungibleToken.applyOp]
    split
    · next h => exact storage_deposit_conserves h hc
    · exact hc
  | storage_withdraw a amount =>
    simp only [FungibleToken.applyOp]
    split
    · next h => rw [storage_withdraw_ok _ _ _ _ h]; exact hc
    · exact hc
  | storage_unregister a f =>
    simp only [FungibleToken.applyOp]
    split
    · next h => exact storage_unregister_conserves h hc
    · exact hc

theorem Contract.applyOps_conserves (c : Contract) (ops : List Op)
    (hc : supply_conserved c.token) : supply_conserved (c.applyOps ops).token := by
  induction ops generalizing c with
  | nil => exact hc
  | cons op rest ih =>
    exact ih (c.applyOp op) (FungibleToken.applyOp_conserves c.token op hc)

theorem Contract.applyOps_metadata (c : Contract) (ops : List Op) :
    (c.applyOps ops).metadata = c.metadata := by
  induction ops generalizing c with
  | nil => rfl
  | cons op rest ih => exact ih (c.applyOp op)

theorem Contract.new_ok (o : AccountId) (s : Nat) (md : FungibleTokenMetadata)
    (c : Contract) (h : Contract.new o s md = .ok c) :
    c.token.accounts = [(o, s)] ∧ c.token.total_supply = s ∧ c.metadata = md := by
  unfold Contract.new at h
  split at h
  · split at h
    · exact Except.noConfusion h
    · next t1 hreg =>
      split at h
      · exact Except.noConfusion h
      · next t2 hdep =>
        injection h with h
        obtain ⟨hl0, hacc1, hsup1⟩ := internal_register_account_ok _ t1 o hreg
        obtain ⟨b, hlb, hacc2, hsup2⟩ := internal_deposit_ok t1 t2 o s hdep
        have hb : b = 0 := by
          rw [hacc1] at hlb
          simp [lookupBal] at hlb
          omega
        rw [← h]
        refine ⟨?_, ?_, rfl⟩
        · show t2.accounts = [(o, s)]
          rw [hacc2, hacc1, hb]
          simp [insertBal]
        · show t2.total_supply = s
          rw [hsup2, hsup1]
          simp
  · exact Except.noConfusion h

theorem internal_ft_resolve_transfer_eq (t : FungibleToken) (sender receiver : AccountId)
    (amount : Nat) (r : PromiseResult) (hne : sender ≠ receiver) :
    internal_ft_resolve_transfer t sender receiver amount r =
      if resolve_refund t receiver amount r = 0 then (t, amount, 0)
      else
        match lookupBal t.accounts sender with
        | some sb =>
          ({ accounts :=
              insertBal
                (insertBal t.accounts receiver
                  (ft_balance_of t receiver - resolve_refund t receiver amount r))
                sender (sb + resolve_refund t receiver amount r),
             total_supply := t.total_supply },
           amount - resolve_refund t receiver amount r, 0)
        | none =>
          ({ accounts :=
              insertBal t.accounts receiver
                (ft_balance_of t receiver - resolve_refund t receiver amount r),
             total_supply := t.total_supply - resolve_refund t receiver amount r },
           amount, resolve_refund t receiver amount r) := by
  by_cases hu : resolve_unused amount r = 0
  · have href : resolve_refund t receiver amount r = 0 := by
      simp [resolve_refund, hu]
    rw [if_pos href]
    simp [internal_ft_resolve_transfer, hu]
  · by_cases hrb : ft_balance_of t receiver = 0
    · have href : resolve_refund t receiver amount r = 0 := by
        simp [resolve_refund, hrb]
      rw [if_pos href]
      simp [internal_ft_resolve_transfer, hu, hrb]
    · have href : resolve_refund t receiver amount r ≠ 0 := by
        unfold resolve_refund
        exact Nat.pos_iff_ne_zero.mp
          (lt_min (Nat.pos_of_ne_zero hrb) (Nat.pos_of_ne_zero hu))
      rw [if_neg href]
      unfold internal_ft_resolve_transfer
      dsimp only
      rw [if_neg hu, if_neg hrb]
      rw [lookupBal_insertBal_other _ _ _ _ hne]
      cases hsd : lookupBal t.accounts sender with
      | some sb => simp [resolve_refund]
      | none => simp [resolve_refund]

/-- C1: for every sequence of completed contract operations (transfer,
transfer_call and its resolution, storage_deposit, storage_withdraw,
storage_unregister) starting from a successful initialization, the sum of
all account balances held in the ledger equals the stored total supply
after every completed call. -/
theorem C1_supply_conservation (o : AccountId) (s : Nat) (md : FungibleTokenMetadata)
    (c : Contract) (ops : List Op) (h : Contract.new o s md = .ok c) :
    sumBal ((c.applyOps ops).token.accounts) =
      ft_total_supply (c.applyOps ops).token := by
  obtain ⟨hacc, hsup, _⟩ := Contract.new_ok o s md c h
  have hc : supply_conserved c.token := by
    unfold supply_conserved
    rw [hacc, hsup]
    simp [sumBal]
  exact Contract.applyOps_conserves c ops hc

/-- Witness for C1 at a concrete initialization and operation sequence. -/
theorem C1_supply_conservation_witness :
    Contract.new "owner" 100 mdW = .ok cW ∧
    sumBal ((cW.applyOps opsW).token.accounts) =
      ft_total_supply (cW.applyOps opsW).token :=
  ⟨by decide, C1_supply_conservation "owner" 100 mdW cW opsW (by decide)⟩

/-- C4: after a successful initialization with owner `o` and total supply
`s`, the balance of the owner is `s`, the balance of every other account is 0, and
the stored total supply is `s`. -/
theorem C4_initial_balances (o : AccountId) (s : Nat) (md : FungibleTokenMetadata)
    (c : Contract) (h : Contract.new o s md = .ok c) :
    ft_balance_of c.token o = s ∧
    (∀ a, a ≠ o → ft_balance_of c.token a = 0) ∧
    ft_total_supply c.token = s := by
  obtain ⟨hacc, hsup, _⟩ := Contract.new_ok o s md c h
  refine ⟨?_, ?_, hsup⟩
  · unfold ft_balance_of
    rw [hacc]
    simp [lookupBal]
  · intro a ha
    unfold ft_balance_of
    rw [hacc]
    simp [lookupBal, Ne.symm ha]

/-- Witness for C4 at a concrete initialization. -/
theorem C4_initial_balances_witness :
    Contract.new "owner" 100 mdW = .ok cW ∧
    (ft_balance_of cW.token "owner" = 100 ∧
     (∀ a, a ≠ "owner" → ft_balance_of cW.token a = 0) ∧
     ft_total_supply cW.token = 100) :=
  ⟨by decide, C4_initial_balances "owner" 100 mdW cW (by decide)⟩

/-- C5: initialization succeeds at most once: in any state where the
contract already exists, a further initialization call fails with
`AlreadyInitialized` and leaves the existing state unchanged. -/
theorem C5_initialize_once (c : Contract) (o : AccountId) (s : Nat)
    (md : FungibleTokenMetadata) :
    init_contract (some c) o s md = (some c, some .AlreadyInitialized) := rfl

/-- C7: `balance_of` is a total query on the ledger state: it returns the
stored entry when the account is registered and 0 when the account has no
ledger entry; being a plain function of the state it can neither fail nor
mutate anything. -/
theorem C7_balance_of_query (t : FungibleToken) (a : AccountId) :
    (lookupBal t.accounts a = none → ft_balance_of t a = 0) ∧
    (∀ b, lookupBal t.accounts a = some b → ft_balance_of t a = b) :=
  ⟨ft_balance_of_of_lookup_none t a,
   fun b h => ft_balance_of_eq_of_lookup t a b h⟩

/-- Witness for C7: an unregistered account has balance 0. -/
theorem C7_balance_of_query_witness :
    ft_balance_of tW "carol" = 0 :=
  (C7_balance_of_query tW "carol").1 (by decide)

/-- C9: `new_default_meta(owner_id, total_supply)` produces exactly the
same contract state as `new(owner_id, total_supply, m)` where `m` is the
fixed default metadata the specification describes. -/
theorem C9_new_default_meta_eq (o : AccountId) (s : Nat) :
    Contract.new_default_meta o s = Contract.new o s spec_default_metadata := rfl

/-- C10: the metadata stored at initialization is never modified by any
subsequent ledger or storage operation: after any sequence of completed
calls, `ft_metadata` returns exactly the metadata passed to `new`. -/
theorem C10_metadata_frame (o : AccountId) (s : Nat) (md : FungibleTokenMetadata)
    (c : Contract) (ops : List Op) (h : Contract.new o s md = .ok c) :
    (c.applyOps ops).ft_metadata = md := by
  obtain ⟨_, _, hmd⟩ := Contract.new_ok o s md c h
  show (c.applyOps ops).metadata = md
  rw [Contract.applyOps_metadata, hmd]

/-- Witness for C10 at a concrete initialization and operation sequence. -/
theorem C10_metadata_frame_witness :
    Contract.new "owner" 100 mdW = .ok cW ∧
    (cW.applyOps opsM).ft_metadata = mdW :=
  ⟨by decide, C10_metadata_frame "owner" 100 mdW cW opsM (by decide)⟩

/-- C2: for every transfer-call resolution with distinct sender and
receiver, the resolution deducts from the receiver exactly the reported
unused portion clamped to the current balance of the receiver (never more),
credits that clamped amount back to a still-registered sender, burns the
refund (reporting it through `on_tokens_burned`) only when the sender
account no longer exists, and never mints: the total supply is conserved
or decreased but never increased by resolution. -/
theorem C2_resolve_transfer (t : FungibleToken) (sender receiver : AccountId)
    (amount : Nat) (r : PromiseResult) (hne : sender ≠ receiver) :
    ft_balance_of (internal_ft_resolve_transfer t sender receiver amount r).1 receiver
      = ft_balance_of t receiver - resolve_refund t receiver amount r ∧
    resolve_refund t receiver amount r ≤ ft_balance_of t receiver ∧
    resolve_refund t receiver amount r ≤ resolve_unused amount r ∧
    (∀ sb, lookupBal t.accounts sender = some sb →
      ft_balance_of (internal_ft_resolve_transfer t sender receiver amount r).1 sender
        = sb + resolve_refund t receiver amount r) ∧
    (lookupBal t.accounts sender = none →
      (internal_ft_resolve_transfer t sender receiver amount r).2.2
        = resolve_refund t receiver amount r ∧
      (internal_ft_resolve_transfer t sender receiver amount r).1.total_supply
        = t.total_supply - resolve_refund t receiver amount r) ∧
    (internal_ft_resolve_transfer t sender receiver amount r).1.total_supply
      ≤ t.total_supply := by
  rw [internal_ft_resolve_transfer_eq t sender receiver amount r hne]
  by_cases href : resolve_refund t receiver amount r = 0
  · rw [if_pos href]
    refine ⟨?_, ?_, ?_, ?_, ?_, ?_⟩
    · simp [href]
    · rw [href]; exact Nat.zero_le _
    · rw [href]; exact Nat.zero_le _
    · intro sb hsb
      rw [href, ft_balance_of_eq_of_lookup t sender sb hsb]
      omega
    · intro hnone
      rw [href]
      exact ⟨rfl, by simp⟩
    · exact Nat.le_refl _
  · rw [if_neg href]
    have hle1 : resolve_refund t receiver amount r ≤ ft_balance_of t receiver := by
      unfold resolve_refund
      exact Nat.min_le_left _ _
    have hle2 : resolve_refund t receiver amount r ≤ resolve_unused amount r := by
      unfold resolve_refund
      exact Nat.min_le_right _ _
    cases hsd : lookupBal t.accounts sender with
    | some sb =>
      refine ⟨?_, hle1, hle2, ?_, ?_, ?_⟩
      · unfold ft_balance_of
        dsimp only
        rw [lookupBal_insertBal_other _ _ _ _ (Ne.symm hne), lookupBal_insertBal_self]
      · intro sb0 hsb0
        have e : sb = sb0 := Option.some.inj hsb0
        unfold ft_balance_of
        dsimp only
        rw [lookupBal_insertBal_self, e]
      · intro hnone
        exact Option.noConfusion hnone
      · exact Nat.le_refl _
    | none =>
      refine ⟨?_, hle1, hle2, ?_, ?_, ?_⟩
      · unfold ft_balance_of
        dsimp only
        rw [lookupBal_insertBal_self]
      · intro sb0 hsb0
        exact Option.noConfusion hsb0
      · intro _
        exact ⟨rfl, rfl⟩
      · exact Nat.sub_le _ _

/-- Witness for C2 at a concrete resolution in which the receiver holds
only part of the reported unused amount. -/
theorem C2_resolve_transfer_witness :
    ("alice" : AccountId) ≠ "bob" ∧
    (ft_balance_of (internal_ft_resolve_transfer tR "alice" "bob" 5 (.Successful 4)).1 "bob"
        = ft_balance_of tR "bob" - resolve_refund tR "bob" 5 (.Successful 4) ∧
     resolve_refund tR "bob" 5 (.Successful 4) ≤ ft_balance_of tR "bob" ∧
     resolve_refund tR "bob" 5 (.Successful 4) ≤ resolve_unused 5 (.Successful 4) ∧
     (∀ sb, lookupBal tR.accounts "alice" = some sb →
       ft_balance_of (internal_ft_resolve_transfer tR "alice" "bob" 5 (.Successful 4)).1 "alice"
         = sb + resolve_refund tR "bob" 5 (.Successful 4)) ∧
     (lookupBal tR.accounts "alice" = none →
       (internal_ft_resolve_transfer tR "alice" "bob" 5 (.Successful 4)).2.2
         = resolve_refund tR "bob" 5 (.Successful 4) ∧
       (internal_ft_resolve_transfer tR "alice" "bob" 5 (.Successful 4)).1.total_supply
         = tR.total_supply - resolve_refund tR "bob" 5 (.Successful 4)) ∧
     (internal_ft_resolve_transfer tR "alice" "bob" 5 (.Successful 4)).1.total_supply
       ≤ tR.total_supply) :=
  ⟨by decide, C2_resolve_transfer tR "alice" "bob" 5 (.Successful 4) (by decide)⟩

/-- C3 is false as stated: with sender = receiver and amount 0 the
transfer fails with `SelfTransfer`, not `ZeroAmount` (the self-transfer
check runs first); and with an unregistered sender whose implicit balance
0 is below the requested amount it fails with `NotRegistered`, not
`InsufficientBalance`. -/
theorem C3_counterexample :
    internal_transfer tW "alice" "alice" 0 = .error .SelfTransfer ∧
    internal_transfer tW "alice" "alice" 0 ≠ .error .ZeroAmount ∧
    ft_balance_of tW "carol" < 1 ∧
    internal_transfer tW "carol" "alice" 1 = .error .NotRegistered ∧
    internal_transfer tW "carol" "alice" 1 ≠ .error .InsufficientBalance := by
  decide

/-- C3 (amended): `transfer` fails with `SelfTransfer` when sender equals
receiver; with `ZeroAmount` when the sender differs and the amount is 0;
with `InsufficientBalance` when the sender differs, is registered, and the
positive amount exceeds the recorded balance of the sender (an unregistered
sender fails with `NotRegistered` instead); and every failing transfer
leaves the ledger state, hence both balances, unchanged. -/
theorem C3_transfer_boundary (t : FungibleToken) (s r : AccountId) (amt : Nat) :
    (s = r → internal_transfer t s r amt = .error .SelfTransfer) ∧
    (s ≠ r → amt = 0 → internal_transfer t s r amt = .error .ZeroAmount) ∧
    (s ≠ r → 0 < amt → ∀ bs, lookupBal t.accounts s = some bs → bs < amt →
      internal_transfer t s r amt = .error .InsufficientBalance) ∧
    (s ≠ r → 0 < amt → lookupBal t.accounts s = none →
      internal_transfer t s r amt = .error .NotRegistered) ∧
    (∀ e, internal_transfer t s r amt = .error e →
      FungibleToken.applyOp t (.transfer s r amt) = t) := by
  refine ⟨?_, ?_, ?_, ?_, ?_⟩
  · intro h
    simp [internal_transfer, h]
  · intro hne hz
    simp [internal_transfer, hne, hz]
  · intro hne hp bs hls hlt
    have hz : ¬ amt = 0 := by omega
    have hw : internal_withdraw t s amt = .error .InsufficientBalance := by
      simp [internal_withdraw, hls, hlt]
    simp [internal_transfer, hne, hz, hw]
  · intro hne hp hnone
    have hz : ¬ amt = 0 := by omega
    have hw : internal_withdraw t s amt = .error .NotRegistered := by
      simp [internal_withdraw, hnone]
    simp [internal_transfer, hne, hz, hw]
  · intro e he
    simp [FungibleToken.applyOp, he]

/-- Witness for C3 (amended): a zero-amount transfer between distinct
accounts fails with `ZeroAmount`. -/
theorem C3_transfer_boundary_witness :
    internal_transfer tW "alice" "bob" 0 = .error .ZeroAmount :=
  (C3_transfer_boundary tW "alice" "bob" 0).2.1 (by decide) rfl

/-- C6: for an unregistered account, `storage_deposit` with attached
deposit at least the registration cost `mn` registers the account with
zero balance, consumes `mn` and refunds the remainder; with a smaller
attached deposit it fails with `InsufficientStorageDeposit`, refunds the
entire attached deposit, and leaves the account unregistered. -/
theorem C6_storage_deposit_boundary (t : FungibleToken) (a : AccountId)
    (attached mn : Nat) (hreg : lookupBal t.accounts a = none) :
    (mn ≤ attached →
      storage_deposit t a attached mn =
        (.ok { t with accounts := t.accounts ++ [(a, 0)] }, attached - mn) ∧
      lookupBal (t.accounts ++ [(a, 0)]) a = some 0) ∧
    (attached < mn →
      storage_deposit t a attached mn =
        (.error .InsufficientStorageDeposit, attached) ∧
      lookupBal (FungibleToken.applyOp t (.storage_deposit a attached mn)).accounts a
        = none) := by
  constructor
  · intro hle
    constructor
    · simp [storage_deposit, hreg, hle]
    · rw [lookupBal_append_none _ _ _ _ hreg]
      simp
  · intro hlt
    have hnle : ¬ mn ≤ attached := by omega
    have hsd : storage_deposit t a attached mn =
        (.error .InsufficientStorageDeposit, attached) := by
      simp [storage_deposit, hreg, hnle]
    exact ⟨hsd, by simp [FungibleToken.applyOp, hsd, hreg]⟩

/-- Witness for C6 at a concrete unregistered account. -/
theorem C6_storage_deposit_boundary_witness :
    lookupBal tR.accounts "carol" = none ∧
    ((3 ≤ 10 →
      storage_deposit tR "carol" 10 3 =
        (.ok { tR with accounts := tR.accounts ++ [("carol", 0)] }, 10 - 3) ∧
      lookupBal (tR.accounts ++ [("carol", 0)]) "carol" = some 0) ∧
     (10 < 3 →
      storage_deposit tR "carol" 10 3 = (.error .InsufficientStorageDeposit, 10) ∧
      lookupBal (FungibleToken.applyOp tR (.storage_deposit "carol" 10 3)).accounts "carol"
        = none)) :=
  ⟨by decide, C6_storage_deposit_boundary tR "carol" 10 3 (by decide)⟩

/-- C8: for registered accounts a and b, a transfer of `amt` from a to b
followed by a transfer of `amt` back from b to a, both succeeding,
restores the balances of both a and b to their values before the first
transfer. -/
theorem C8_transfer_round_trip (t t1 t2 : FungibleToken) (a b : AccountId) (amt : Nat)
    (h1 : internal_transfer t a b amt = .ok t1)
    (h2 : internal_transfer t1 b a amt = .ok t2) :
    ft_balance_of t2 a = ft_balance_of t a ∧
    ft_balance_of t2 b = ft_balance_of t b := by
  obtain ⟨hab, hpos, bs, br, hls, hlr, hle, h1s, h1r, hsup1⟩ :=
    internal_transfer_ok_balances t t1 a b amt h1
  obtain ⟨hba, hpos2, bs2, br2, h2ls, h2lr, hle2, h2s, h2r, hsup2⟩ :=
    internal_transfer_ok_balances t1 t2 b a amt h2
  have e1 : br + amt = bs2 := by
    rw [h1r] at h2ls
    exact Option.some.inj h2ls
  have e2 : bs - amt = br2 := by
    rw [h1s] at h2lr
    exact Option.some.inj h2lr
  constructor
  · rw [ft_balance_of_eq_of_lookup t2 a (br2 + amt) h2r,
      ft_balance_of_eq_of_lookup t a bs hls]
    omega
  · rw [ft_balance_of_eq_of_lookup t2 b (bs2 - amt) h2s,
      ft_balance_of_eq_of_lookup t b br hlr]
    omega

/-- Witness for C8 at a concrete round trip. -/
theorem C8_transfer_round_trip_witness :
    internal_transfer tW "alice" "bob" 3 = .ok tW1 ∧
    internal_transfer tW1 "bob" "alice" 3 = .ok tW2 ∧
    (ft_balance_of tW2 "alice" = ft_balance_of tW "alice" ∧
     ft_balance_of tW2 "bob" = ft_balance_of tW "bob") :=
  ⟨by decide, by decide,
   C8_transfer_round_trip tW tW1 tW2 "alice" "bob" 3 (by decide) (by decide)⟩
